import Mathlib

/-
Verification of `curl_my_files.py` (repository kmicb/keys).

The program is the single class `TokenManager`: it creates two temporary
files with 0o600 permissions, registers `cleanup` with `atexit` and as the
SIGINT/SIGTERM handler, prompts for a GPG passphrase, downloads an
encrypted token with curl, decrypts it with gpg (passphrase over stdin),
reads the token, and downloads two files with the token in an
`Authorization` header.  `cleanup` calls `secure_rm` on both temp files
(shred with a fallback to `os.remove`) and sets `self.token = None`.

The embedding below models the state of the manager (the two temporary
files and the in-memory token), the outcomes of the external tools as an
explicit environment, and the run of the program as an event trace plus an
exit code and a final state.
-/

namespace CurlMyFiles

/-- The NUL character, the byte `shred -z` leaves in an overwritten file. -/
def nulChar : Char := Char.ofNat 0

/-- A file on durable storage: its byte content (as characters) and its
permission bits (e.g. `0o600 = 384`). -/
structure FileData where
  content : List Char
  mode : Nat
deriving DecidableEq, Repr

/-- The fields of a `TokenManager` instance: the names of the two temporary
files (`self.tmp_gpg.name`, `self.tmp_token.name`), the files themselves on
durable storage (`none` means the path does not exist), and the in-memory
token (`self.token`). -/
structure TMState where
  gpgPath : String
  tokenPath : String
  tmpGpg : Option FileData
  tmpToken : Option FileData
  token : Option String
deriving DecidableEq, Repr

/-- Outcome of one invocation of the external `shred` tool, matching the
exceptions `secure_rm` catches: exit 0, `CalledProcessError` (non-zero
exit), `FileNotFoundError` (shred not installed), `TimeoutExpired`
(exceeds the 5 second timeout). -/
inductive ShredOutcome
  | ok
  | nonzeroExit
  | notFound
  | timedOut
deriving DecidableEq, Repr

/-- Outcome of the fallback `os.remove`: success, or an `OSError` (which
`secure_rm` suppresses with `pass`). -/
inductive RmOutcome
  | ok
  | osError
deriving DecidableEq, Repr

/-- Deletion environment for one file: what shred does and what the
fallback `os.remove` does on that path. -/
structure RmEnv where
  shred : ShredOutcome
  rm : RmOutcome
deriving DecidableEq, Repr

/-- Deletion environment for a whole `cleanup` call: one `RmEnv` per
temporary file.  A fixed environment models deterministic behaviour of the
external tools on each path. -/
structure CleanupEnv where
  gpgEnv : RmEnv
  tokEnv : RmEnv
deriving DecidableEq, Repr

/-- Events emitted by `secure_rm` while treating one path. -/
inductive RmEvent
  | skipped (path : String)
  | shredAttempt (path : String)
  | rmAttempt (path : String)
deriving DecidableEq, Repr

/-- Models the body of the `for filepath in files` loop of
`TokenManager.secure_rm` on one path.

If `os.path.exists(filepath)` is false the loop `continue`s (the path is
skipped).  Otherwise `subprocess.run(['shred', '-vfz', '-n', '3',
filepath], ...)` is attempted.  Modelled semantics of coreutils
`shred -vfz -n 3`: it overwrites the file in place (three random passes,
then `-z` adds a final pass of zeros, preserving the size) and does NOT
unlink it, because the `-u`/`--remove` flag is absent from the argument
vector.  On `CalledProcessError`, `FileNotFoundError` or `TimeoutExpired`
the code falls back to `os.remove(filepath)`, suppressing `OSError`; on a
suppressed `OSError` the file is left as it was (for the non-`notFound`
shred failures any partial overwrite is abstracted as the original
content, which is the conservative choice for secrecy statements). -/
def secureRmFileT (env : RmEnv) (path : String) (f : Option FileData) :
    List RmEvent × Option FileData :=
  match f with
  | none => ([RmEvent.skipped path], none)
  | some fd =>
    match env.shred with
    | ShredOutcome.ok =>
        ([RmEvent.shredAttempt path],
         some { fd with content := List.replicate fd.content.length nulChar })
    | _ =>
        match env.rm with
        | RmOutcome.ok => ([RmEvent.shredAttempt path, RmEvent.rmAttempt path], none)
        | RmOutcome.osError =>
            ([RmEvent.shredAttempt path, RmEvent.rmAttempt path], some fd)

/-- Models `TokenManager.cleanup`: `secure_rm(self.tmp_gpg.name,
self.tmp_token.name)` followed by `self.token = None`; returns the
`RmEvent` trace together with the new state. -/
def cleanupT (cenv : CleanupEnv) (s : TMState) : List RmEvent × TMState :=
  let r1 := secureRmFileT cenv.gpgEnv s.gpgPath s.tmpGpg
  let r2 := secureRmFileT cenv.tokEnv s.tokenPath s.tmpToken
  (r1.1 ++ r2.1, { s with tmpGpg := r1.2, tmpToken := r2.2, token := none })

/-- State part of `cleanup`. -/
def cleanupState (cenv : CleanupEnv) (s : TMState) : TMState :=
  (cleanupT cenv s).2

/-- A file holds no secret material: it is absent, or every byte of its
content is zero (as left by a successful `shred -z` pass). -/
def noSecret : Option FileData → Bool
  | none => true
  | some fd => fd.content.all (fun c => c == nulChar)

/-! Basic lemmas about `secure_rm` and `cleanup`. -/

theorem secureRmFileT_idem (env : RmEnv) (path : String) (f : Option FileData) :
    (secureRmFileT env path (secureRmFileT env path f).2).2
      = (secureRmFileT env path f).2 := by
  cases f with
  | none => simp [secureRmFileT]
  | some fd =>
    cases henv : env.shred with
    | ok => simp [secureRmFileT, henv]
    | nonzeroExit =>
      cases hrm : env.rm <;> simp [secureRmFileT, henv, hrm]
    | notFound =>
      cases hrm : env.rm <;> simp [secureRmFileT, henv, hrm]
    | timedOut =>
      cases hrm : env.rm <;> simp [secureRmFileT, henv, hrm]

theorem cleanupState_idem (cenv : CleanupEnv) (s : TMState) :
    cleanupState cenv (cleanupState cenv s) = cleanupState cenv s := by
  simp [cleanupState, cleanupT, secureRmFileT_idem]

theorem secureRmFileT_noSecret (env : RmEnv) (path : String) (f : Option FileData)
    (h : env.shred = ShredOutcome.ok ∨ env.rm = RmOutcome.ok) :
    noSecret (secureRmFileT env path f).2 = true := by
  cases f with
  | none => simp [secureRmFileT, noSecret]
  | some fd =>
    rcases h with h | h
    · simp [secureRmFileT, h, noSecret]
    · cases henv : env.shred with
      | ok => simp [secureRmFileT, henv, noSecret]
      | nonzeroExit => simp [secureRmFileT, henv, h, noSecret]
      | notFound => simp [secureRmFileT, henv, h, noSecret]
      | timedOut => simp [secureRmFileT, henv, h, noSecret]

theorem cleanupState_token_none (cenv : CleanupEnv) (s : TMState) :
    (cleanupState cenv s).token = none := by
  simp [cleanupState, cleanupT]

theorem cleanupState_noSecret (cenv : CleanupEnv) (s : TMState)
    (hg : cenv.gpgEnv.shred = ShredOutcome.ok ∨ cenv.gpgEnv.rm = RmOutcome.ok)
    (ht : cenv.tokEnv.shred = ShredOutcome.ok ∨ cenv.tokEnv.rm = RmOutcome.ok) :
    noSecret (cleanupState cenv s).tmpGpg = true
      ∧ noSecret (cleanupState cenv s).tmpToken = true
      ∧ (cleanupState cenv s).token = none := by
  refine ⟨?_, ?_, cleanupState_token_none cenv s⟩
  · simpa [cleanupState, cleanupT] using
      secureRmFileT_noSecret cenv.gpgEnv s.gpgPath s.tmpGpg hg
  · simpa [cleanupState, cleanupT] using
      secureRmFileT_noSecret cenv.tokEnv s.tokenPath s.tmpToken ht

/-! The run model: argument vectors, events, and the workflow `run()`. -/

/-- Whitespace as stripped by Python `str.strip()` (restricted to the
ASCII whitespace characters: space, tab, newline, carriage return,
vertical tab, form feed). -/
def isPySpace (c : Char) : Bool :=
  c == ' ' || c == '\t' || c == '\n' || c == '\r'
    || c == Char.ofNat 11 || c == Char.ofNat 12

/-- Python `s.strip()`: remove leading and trailing whitespace. -/
def pyStrip (s : String) : String :=
  String.mk (((s.toList.dropWhile isPySpace).reverse.dropWhile isPySpace).reverse)

/-- Models `TokenManager.prompt_passphrase`.  The argument is the result of
`getpass.getpass(...)`: `none` when the read raised an exception.  A `none`
result models `self.fail(...)` (exit with status 1): on a read failure, or
when the stripped passphrase is empty.  Otherwise the stripped passphrase
is returned. -/
def promptPassphrase (lineRead : Option String) : Option String :=
  match lineRead with
  | none => none
  | some line =>
    let pw := pyStrip line
    if pw = "" then none else some pw

/-- The fixed URL of the encrypted token (`self.encrypted_token_url`). -/
def encryptedTokenUrl : String :=
  "https://github.com/kmicb/keys/raw/refs/heads/main/gh_token.txt.gpg"

/-- The fixed base URL of the private repository (`self.private_repo`). -/
def privateRepo : String :=
  "https://raw.githubusercontent.com/kmicb/rpi/main"

/-- Argument vector of the curl call in `download_encrypted_token`. -/
def curlTokenArgv (gpgPath : String) : List String :=
  ["curl", "-fsSL", encryptedTokenUrl, "-o", gpgPath]

/-- Argument vector of the gpg call in `decrypt_token`.  It is built from
the two temporary file names only; the passphrase does not occur in it
(the code sends the passphrase over stdin, file descriptor 0, via
`process.communicate(input=passphrase.encode(), ...)`). -/
def gpgArgv (tokenPath gpgPath : String) : List String :=
  ["gpg", "--quiet", "--batch", "--yes",
   "--pinentry-mode", "loopback",
   "--no-symkey-cache",
   "--decrypt",
   "--passphrase-fd", "0",
   "--output", tokenPath,
   gpgPath]

/-- The subprocess invocation performed by `decrypt_token` for a given
passphrase: the argument vector of the `Popen` call paired with the data
written to the child's stdin by `communicate`. -/
def decryptInvocation (passphrase tokenPath gpgPath : String) :
    List String × String :=
  (gpgArgv tokenPath gpgPath, passphrase)

/-- Argument vector of the curl call in `download_file`: the token is
interpolated into the `Authorization` header argument
(`f'Authorization: token \x7bself.token\x7d'`). -/
def curlAuthArgv (token url output : String) : List String :=
  ["curl", "-fsSL", "-H", "Authorization: token " ++ token, url, "-o", output]

/-- Observable events of a process execution. -/
inductive Event
  | fsCreate (path : String) (mode : Nat)
  | fsChmod (path : String) (mode : Nat)
  | fsWrite (path : String) (data : List Char)
  | checkCmd (cmd : String)
  | promptPass
  | curlRun (argv : List String)
  | gpgInvoke (argv : List String) (stdinData : String)
  | gpgKill
  | errPrint (msg : String)
  | outPrint (msg : String)
  | cleanupCall
deriving DecidableEq, Repr

/-- Outcome of a curl subprocess (`subprocess.run(..., check=True,
timeout=30)`): success, `CalledProcessError`, or `TimeoutExpired`. -/
inductive CurlOutcome
  | ok
  | calledProcessError
  | timedOut
deriving DecidableEq, Repr

/-- Outcome of the gpg subprocess in `decrypt_token`: it exits with some
return code, `communicate` raises `TimeoutExpired` (after 10 seconds), or
some other exception is raised (the final `except Exception` branch). -/
inductive GpgOutcome
  | exits (returncode : Nat)
  | timedOut
  | otherError
deriving DecidableEq, Repr

/-- Environment of one execution of `run()`: behaviour of the outside
world (PATH contents, terminal, network, gpg, filesystem reads). -/
structure RunEnv where
  /-- `shutil.which('gpg')` finds the binary. -/
  gpgOnPath : Bool
  /-- `shutil.which('curl')` finds the binary. -/
  curlOnPath : Bool
  /-- Result of `getpass.getpass(...)`; `none` models a raised exception. -/
  passphraseLine : Option String
  /-- Outcome of the curl download of the encrypted token. -/
  encTokenDownload : CurlOutcome
  /-- Body written by curl into the encrypted-token temp file on success. -/
  encBytes : List Char
  /-- Outcome of the gpg decryption subprocess. -/
  gpgOutcome : GpgOutcome
  /-- Plaintext written by gpg into the token temp file when it exits 0. -/
  plainBytes : List Char
  /-- `open(self.tmp_token.name).read()` raises `IOError`. -/
  readFails : Bool
  /-- Outcome of the authenticated download of `setup_rpi.py`. -/
  download1 : CurlOutcome
  /-- Outcome of the authenticated download of `config.ini`. -/
  download2 : CurlOutcome
deriving Repr

/-- Overwrite the content of a file (as `curl -o` or `gpg --output` do).
In the modelled runs the target always exists (it was created in
`__init__` and cleanup has not yet run); the `none` branch creates it with
the default 0o644 permissions. -/
def writeFile (f : Option FileData) (data : List Char) : Option FileData :=
  match f with
  | some fd => some { fd with content := data }
  | none => some { content := data, mode := 420 }

/-- The tail of `run()` from `download_encrypted_token()` on, given the
already-stripped passphrase `pw`.  Mirrors lines 170-183 of the source
plus the bodies of the called methods; every `self.fail(msg)` becomes an
`errPrint` event and exit code 1.  (The messages drop the interpolated
exception text of the source's f-strings.) -/
def afterPassphrase (env : RunEnv) (s : TMState) (pw : String)
    (pre : List Event) : List Event × Nat × TMState :=
  let tr1 := pre ++ [Event.curlRun (curlTokenArgv s.gpgPath)]
  match env.encTokenDownload with
  | CurlOutcome.calledProcessError =>
      (tr1 ++ [Event.errPrint "Failed to download encrypted token"], 1, s)
  | CurlOutcome.timedOut =>
      (tr1 ++ [Event.errPrint "Download timed out"], 1, s)
  | CurlOutcome.ok =>
    let s1 := { s with tmpGpg := writeFile s.tmpGpg env.encBytes }
    let inv := decryptInvocation pw s.tokenPath s.gpgPath
    let tr2 := tr1 ++ [Event.fsWrite s.gpgPath env.encBytes,
                       Event.gpgInvoke inv.1 inv.2]
    match env.gpgOutcome with
    | GpgOutcome.timedOut =>
        (tr2 ++ [Event.gpgKill, Event.errPrint "GPG decryption timed out"], 1, s1)
    | GpgOutcome.otherError =>
        (tr2 ++ [Event.errPrint "Decryption error"], 1, s1)
    | GpgOutcome.exits rc =>
      if rc ≠ 0 then (tr2 ++ [Event.errPrint "GPG decryption failed"], 1, s1)
      else
        let s2 := { s1 with tmpToken := writeFile s1.tmpToken env.plainBytes }
        let tr3 := tr2 ++ [Event.fsWrite s.tokenPath env.plainBytes]
        if env.readFails then
          (tr3 ++ [Event.errPrint "Failed to read token file"], 1, s2)
        else
          let tok := pyStrip (String.mk env.plainBytes)
          if tok = "" then
            (tr3 ++ [Event.errPrint "Decrypted token file is empty"], 1, s2)
          else
            let s3 := { s2 with token := some tok }
            let tr4 := tr3 ++ [Event.curlRun
              (curlAuthArgv tok (privateRepo ++ "/setup_rpi.py") "setup_rpi.py")]
            match env.download1 with
            | CurlOutcome.calledProcessError =>
                (tr4 ++ [Event.errPrint "Failed to download setup_rpi.py"], 1, s3)
            | CurlOutcome.timedOut =>
                (tr4 ++ [Event.errPrint "Download of setup_rpi.py timed out"], 1, s3)
            | CurlOutcome.ok =>
              let tr5 := tr4 ++ [Event.curlRun
                (curlAuthArgv tok (privateRepo ++ "/config.ini") "config.ini")]
              match env.download2 with
              | CurlOutcome.calledProcessError =>
                  (tr5 ++ [Event.errPrint "Failed to download config.ini"], 1, s3)
              | CurlOutcome.timedOut =>
                  (tr5 ++ [Event.errPrint "Download of config.ini timed out"], 1, s3)
              | CurlOutcome.ok =>
                  (tr5 ++ [Event.outPrint "Successfully downloaded files"], 0, s3)

/-- Models `TokenManager.run` (lines 161-183): prerequisite checks, the
passphrase prompt, then `afterPassphrase`.  Returns the event trace,
the exit code requested by the code (`sys.exit(1)` in `fail`, or a normal
return giving exit code 0), and the manager state when `run` ends. -/
def runSteps (env : RunEnv) (s : TMState) : List Event × Nat × TMState :=
  if ¬ env.gpgOnPath then
    ([Event.checkCmd "gpg", Event.errPrint "gpg not installed"], 1, s)
  else if ¬ env.curlOnPath then
    ([Event.checkCmd "gpg", Event.checkCmd "curl",
      Event.errPrint "curl not installed"], 1, s)
  else
    let pre := [Event.checkCmd "gpg", Event.checkCmd "curl", Event.promptPass]
    match env.passphraseLine with
    | none => (pre ++ [Event.errPrint "Failed to read passphrase"], 1, s)
    | some line =>
      let pw := pyStrip line
      if pw = "" then (pre ++ [Event.errPrint "Empty passphrase provided"], 1, s)
      else afterPassphrase env s pw pre

/-- Manager state right after `__init__`: both temporary files exist,
empty, with mode `0o600`; no token in memory. -/
def initState (gpgPath tokenPath : String) : TMState :=
  { gpgPath := gpgPath, tokenPath := tokenPath,
    tmpGpg := some { content := [], mode := 0o600 },
    tmpToken := some { content := [], mode := 0o600 },
    token := none }

/-- Filesystem events of `__init__` (lines 28-34).
`tempfile.NamedTemporaryFile` creates each file through `mkstemp`, which
creates it empty and readable/writable only by the creating user
(mode `0o600`); the code then additionally calls `os.chmod(name, 0o600)`. -/
def initTrace (gpgPath tokenPath : String) : List Event :=
  [Event.fsCreate gpgPath 0o600, Event.fsChmod gpgPath 0o600,
   Event.fsCreate tokenPath 0o600, Event.fsChmod tokenPath 0o600]

/-- Models Python interpreter shutdown after `sys.exit(code)` or a normal
return from `main`: the `atexit`-registered handler — `self.cleanup` — is
executed, then the process exits with `code`. -/
def atexitShutdown (cenv : CleanupEnv) (code : Nat) (s : TMState) :
    List Event × Nat × TMState :=
  ([Event.cleanupCall], code, cleanupState cenv s)

/-- A whole uninterrupted process execution: `__init__`, `run()`, then
interpreter shutdown (which runs the `atexit` cleanup handler). -/
def processRun (env : RunEnv) (cenv : CleanupEnv) (gpgPath tokenPath : String) :
    List Event × Nat × TMState :=
  let r := runSteps env (initState gpgPath tokenPath)
  let sh := atexitShutdown cenv r.2.1 r.2.2
  (initTrace gpgPath tokenPath ++ r.1 ++ sh.1, sh.2.1, sh.2.2)

/-- Models delivery of SIGINT or SIGTERM when the manager state is `s`:
`_signal_handler` runs `self.cleanup()` and then calls `sys.exit(1)`;
the `SystemExit` terminates the interpreter, whose shutdown runs the
`atexit`-registered `self.cleanup` a second time.  The trace records both
invocations of the cleanup routine. -/
def interruptedRun (cenv : CleanupEnv) (s : TMState) :
    List Event × Nat × TMState :=
  let s1 := cleanupState cenv s
  let sh := atexitShutdown cenv 1 s1
  (Event.cleanupCall :: sh.1, sh.2.1, sh.2.2)

/-- Number of times the cleanup routine is invoked in a trace. -/
def cleanupCount (tr : List Event) : Nat :=
  tr.count Event.cleanupCall

/-- The gpg subprocess invocations of a trace: argument vector paired with
the data sent to the child's stdin. -/
def gpgInvocationsOf (tr : List Event) : List (List String × String) :=
  tr.filterMap (fun e =>
    match e with
    | Event.gpgInvoke a d => some (a, d)
    | _ => none)

/-- The file-creation events of a trace: path paired with creation mode. -/
def createsOf (tr : List Event) : List (String × Nat) :=
  tr.filterMap (fun e =>
    match e with
    | Event.fsCreate p m => some (p, m)
    | _ => none)

/-- The file-write events of a trace: path paired with written data. -/
def writesOf (tr : List Event) : List (String × List Char) :=
  tr.filterMap (fun e =>
    match e with
    | Event.fsWrite p d => some (p, d)
    | _ => none)

/-- The curl subprocess invocations (network calls) of a trace. -/
def curlRunsOf (tr : List Event) : List (List String) :=
  tr.filterMap (fun e =>
    match e with
    | Event.curlRun a => some a
    | _ => none)

/-! Trace shape lemmas for the tail of the workflow. -/

theorem gpgInvocationsOf_afterPassphrase (env : RunEnv) (s : TMState)
    (pw : String) (pre : List Event) :
    gpgInvocationsOf (afterPassphrase env s pw pre).1
      = gpgInvocationsOf pre ++
        (match env.encTokenDownload with
         | CurlOutcome.ok => [(gpgArgv s.tokenPath s.gpgPath, pw)]
         | _ => []) := by
  unfold afterPassphrase
  cases henc : env.encTokenDownload <;>
    simp [gpgInvocationsOf, decryptInvocation]
  cases hgo : env.gpgOutcome <;> simp
  case exits rc =>
    by_cases hrc : rc = 0 <;> simp [hrc]
    cases hrf : env.readFails <;> simp
    by_cases htok : pyStrip (String.mk env.plainBytes) = "" <;> simp [htok]
    cases hd1 : env.download1 <;> simp
    cases hd2 : env.download2 <;> simp

theorem createsOf_afterPassphrase (env : RunEnv) (s : TMState)
    (pw : String) (pre : List Event) :
    createsOf (afterPassphrase env s pw pre).1 = createsOf pre := by
  unfold afterPassphrase
  cases henc : env.encTokenDownload <;> simp [createsOf]
  cases hgo : env.gpgOutcome <;> simp
  case exits rc =>
    by_cases hrc : rc = 0 <;> simp [hrc]
    cases hrf : env.readFails <;> simp
    by_cases htok : pyStrip (String.mk env.plainBytes) = "" <;> simp [htok]
    cases hd1 : env.download1 <;> simp
    cases hd2 : env.download2 <;> simp

theorem gpgInvocationsOf_runSteps (env : RunEnv) (s : TMState) (line : String)
    (hg : env.gpgOnPath = true) (hc : env.curlOnPath = true)
    (hl : env.passphraseLine = some line) (hpw : pyStrip line ≠ "") :
    gpgInvocationsOf (runSteps env s).1
      = (match env.encTokenDownload with
         | CurlOutcome.ok => [(gpgArgv s.tokenPath s.gpgPath, pyStrip line)]
         | _ => []) := by
  unfold runSteps
  rw [hl]
  simp only [hg, hc, not_true, if_false, if_neg hpw]
  rw [gpgInvocationsOf_afterPassphrase]
  simp [gpgInvocationsOf]

theorem createsOf_runSteps (env : RunEnv) (s : TMState) :
    createsOf (runSteps env s).1 = [] := by
  unfold runSteps
  by_cases hg : env.gpgOnPath
  · by_cases hc : env.curlOnPath
    · simp only [hg, hc, not_true, if_false]
      cases hl : env.passphraseLine with
      | none => simp [createsOf]
      | some line =>
        by_cases hpw : pyStrip line = ""
        · simp [hpw, createsOf]
        · simp only [if_neg hpw]
          rw [createsOf_afterPassphrase]
          simp [createsOf]
    · simp [hg, hc, createsOf]
  · simp [hg, createsOf]

theorem curlRunsOf_runSteps_empty_pw (env : RunEnv) (s : TMState) (line : String)
    (hl : env.passphraseLine = some line) (he : pyStrip line = "") :
    curlRunsOf (runSteps env s).1 = [] ∧ (runSteps env s).2.1 = 1 := by
  unfold runSteps
  by_cases hg : env.gpgOnPath
  · by_cases hc : env.curlOnPath
    · rw [hl]
      simp [hg, hc, he, curlRunsOf]
    · simp [hg, hc, curlRunsOf]
  · simp [hg, curlRunsOf]

theorem curlRun_not_mem_of_nil (tr : List Event) (h : curlRunsOf tr = [])
    (a : List String) : Event.curlRun a ∉ tr := by
  intro hmem
  have : a ∈ curlRunsOf tr := List.mem_filterMap.mpr ⟨Event.curlRun a, hmem, rfl⟩
  simp [h] at this

theorem curlRunsOf_append (a b : List Event) :
    curlRunsOf (a ++ b) = curlRunsOf a ++ curlRunsOf b := by
  simp [curlRunsOf]

theorem createsOf_append (a b : List Event) :
    createsOf (a ++ b) = createsOf a ++ createsOf b := by
  simp [createsOf]

/-! The claims. -/

/-- C4: if the passphrase prompt yields a string that is empty after
trimming whitespace, the process exits with status 1 and no curl
subprocess — hence no network call — is ever invoked in that run. -/
theorem empty_passphrase_no_network (env : RunEnv) (cenv : CleanupEnv)
    (gp tp line : String)
    (hl : env.passphraseLine = some line) (he : pyStrip line = "") :
    (processRun env cenv gp tp).2.1 = 1
      ∧ curlRunsOf (processRun env cenv gp tp).1 = []
      ∧ ∀ a, Event.curlRun a ∉ (processRun env cenv gp tp).1 := by
  obtain ⟨h1, h2⟩ := curlRunsOf_runSteps_empty_pw env (initState gp tp) line hl he
  have htr : curlRunsOf (processRun env cenv gp tp).1 = [] := by
    simp only [processRun, atexitShutdown, curlRunsOf_append, h1]
    simp [curlRunsOf, initTrace]
  refine ⟨?_, htr, fun a => curlRun_not_mem_of_nil _ htr a⟩
  simp only [processRun, atexitShutdown]
  exact h2

/-- Witness for C4 at a concrete whitespace-only passphrase. -/
theorem empty_passphrase_no_network_witness :
    pyStrip " " = ""
      ∧ (processRun ⟨true, true, some " ", CurlOutcome.ok, [], GpgOutcome.exits 0,
            [], false, CurlOutcome.ok, CurlOutcome.ok⟩
          ⟨⟨ShredOutcome.ok, RmOutcome.ok⟩, ⟨ShredOutcome.ok, RmOutcome.ok⟩⟩
          "/tmp/w4.gpg" "/tmp/w4.txt").2.1 = 1
      ∧ curlRunsOf (processRun ⟨true, true, some " ", CurlOutcome.ok, [],
            GpgOutcome.exits 0, [], false, CurlOutcome.ok, CurlOutcome.ok⟩
          ⟨⟨ShredOutcome.ok, RmOutcome.ok⟩, ⟨ShredOutcome.ok, RmOutcome.ok⟩⟩
          "/tmp/w4.gpg" "/tmp/w4.txt").1 = [] := by
  refine ⟨by decide, ?_, ?_⟩
  · exact (empty_passphrase_no_network _ _ _ _ " " rfl (by decide)).1
  · exact (empty_passphrase_no_network _ _ _ _ " " rfl (by decide)).2.1

/-- C10: for a non-empty-after-trimming input line, `prompt_passphrase`
returns the trimmed line, and it is the trimmed string that is fed to the
stdin of the decryption subprocess during `run()`. -/
theorem prompt_returns_trimmed (env : RunEnv) (s : TMState) (line : String)
    (h : pyStrip line ≠ "") (hg : env.gpgOnPath = true) (hc : env.curlOnPath = true)
    (hl : env.passphraseLine = some line)
    (hdl : env.encTokenDownload = CurlOutcome.ok) :
    promptPassphrase (some line) = some (pyStrip line)
      ∧ gpgInvocationsOf (runSteps env s).1
          = [(gpgArgv s.tokenPath s.gpgPath, pyStrip line)] := by
  refine ⟨by simp [promptPassphrase, h], ?_⟩
  rw [gpgInvocationsOf_runSteps env s line hg hc hl h, hdl]

/-- Witness for C10 at the concrete input line `" hunter2 "`. -/
theorem prompt_returns_trimmed_witness :
    pyStrip " hunter2 " = "hunter2"
      ∧ promptPassphrase (some " hunter2 ") = some (pyStrip " hunter2 ")
      ∧ gpgInvocationsOf (runSteps ⟨true, true, some " hunter2 ", CurlOutcome.ok,
            [], GpgOutcome.exits 0, [], false, CurlOutcome.ok, CurlOutcome.ok⟩
          (initState "/tmp/w10.gpg" "/tmp/w10.txt")).1
        = [(gpgArgv "/tmp/w10.txt" "/tmp/w10.gpg", pyStrip " hunter2 ")] := by
  refine ⟨by decide, ?_, ?_⟩
  · exact (prompt_returns_trimmed ⟨true, true, some " hunter2 ", CurlOutcome.ok,
      [], GpgOutcome.exits 0, [], false, CurlOutcome.ok, CurlOutcome.ok⟩
      (initState "/tmp/w10.gpg" "/tmp/w10.txt") " hunter2 "
      (by decide) rfl rfl rfl rfl).1
  · have h2 := (prompt_returns_trimmed ⟨true, true, some " hunter2 ", CurlOutcome.ok,
      [], GpgOutcome.exits 0, [], false, CurlOutcome.ok, CurlOutcome.ok⟩
      (initState "/tmp/w10.gpg" "/tmp/w10.txt") " hunter2 "
      (by decide) rfl rfl rfl rfl).2
    simpa [initState] using h2

/-- C9: the authenticated download embeds the token in the curl argument
vector, inside the `Authorization: token ...` header argument; the
argument vector therefore depends injectively on the token — unlike the
passphrase, the token does travel on a command line. -/
theorem token_on_curl_command_line (t u o : String) :
    ("Authorization: token " ++ t) ∈ curlAuthArgv t u o
      ∧ (∀ t', curlAuthArgv t u o = curlAuthArgv t' u o → t = t') := by
  constructor
  · simp [curlAuthArgv]
  · intro t' h
    have h4 : "Authorization: token " ++ t = "Authorization: token " ++ t' := by
      simpa [curlAuthArgv] using h
    have h5 := congrArg String.data h4
    simp only [String.data_append] at h5
    exact String.ext (List.append_cancel_left h5)

/-- Witness for C9 at a concrete token, URL and output name. -/
theorem token_on_curl_command_line_witness :
    ("Authorization: token " ++ "ghp_w9")
        ∈ curlAuthArgv "ghp_w9" "https://e.example/f" "f.out"
      ∧ "ghp_w9" = "ghp_w9" := by
  refine ⟨(token_on_curl_command_line "ghp_w9" "https://e.example/f" "f.out").1, ?_⟩
  exact (token_on_curl_command_line "ghp_w9" "https://e.example/f" "f.out").2 "ghp_w9" rfl

/-- C8: the gpg argument vector is the same for every passphrase (two runs
that differ only in the passphrase perform gpg invocations with identical
argument vectors); the passphrase reaches gpg only as the stdin data of
the invocation; batch mode and `--no-symkey-cache` are always on; and a
passphrase distinct from the fixed option strings and the two temp-file
names never occurs in the argument vector. -/
theorem passphrase_not_in_gpg_argv (env : RunEnv) (s : TMState) (l1 l2 p : String)
    (h1 : pyStrip l1 ≠ "") (h2 : pyStrip l2 ≠ "")
    (hg : env.gpgOnPath = true) (hc : env.curlOnPath = true)
    (hp : p ∉ (["gpg", "--quiet", "--batch", "--yes", "--pinentry-mode", "loopback",
        "--no-symkey-cache", "--decrypt", "--passphrase-fd", "0", "--output"] :
        List String))
    (hp1 : p ≠ s.tokenPath) (hp2 : p ≠ s.gpgPath) :
    (gpgInvocationsOf (runSteps { env with passphraseLine := some l1 } s).1).map Prod.fst
        = (gpgInvocationsOf (runSteps { env with passphraseLine := some l2 } s).1).map Prod.fst
      ∧ (∀ a d, (a, d) ∈ gpgInvocationsOf (runSteps { env with passphraseLine := some l1 } s).1 →
          a = gpgArgv s.tokenPath s.gpgPath ∧ d = pyStrip l1)
      ∧ "--batch" ∈ gpgArgv s.tokenPath s.gpgPath
      ∧ "--no-symkey-cache" ∈ gpgArgv s.tokenPath s.gpgPath
      ∧ p ∉ gpgArgv s.tokenPath s.gpgPath := by
  have e1 := gpgInvocationsOf_runSteps { env with passphraseLine := some l1 } s l1 hg hc rfl h1
  have e2 := gpgInvocationsOf_runSteps { env with passphraseLine := some l2 } s l2 hg hc rfl h2
  refine ⟨?_, ?_, by simp [gpgArgv], by simp [gpgArgv], ?_⟩
  · rw [e1, e2]
    cases env.encTokenDownload <;> rfl
  · intro a d hmem
    rw [e1] at hmem
    cases hdl : env.encTokenDownload <;> rw [hdl] at hmem <;> simp at hmem
    exact ⟨hmem.1, hmem.2⟩
  · intro hmem
    simp only [gpgArgv, List.mem_cons, List.not_mem_nil, or_false] at hmem
    simp only [List.mem_cons, List.not_mem_nil, or_false, not_or] at hp
    tauto

/-- Witness for C8 at two concrete passphrases and a concrete manager. -/
theorem passphrase_not_in_gpg_argv_witness :
    (gpgInvocationsOf (runSteps ⟨true, true, some " pw one ", CurlOutcome.ok, [],
          GpgOutcome.exits 0, [], false, CurlOutcome.ok, CurlOutcome.ok⟩
        (initState "/tmp/w8.gpg" "/tmp/w8.txt")).1).map Prod.fst
      = (gpgInvocationsOf (runSteps ⟨true, true, some "other", CurlOutcome.ok, [],
          GpgOutcome.exits 0, [], false, CurlOutcome.ok, CurlOutcome.ok⟩
        (initState "/tmp/w8.gpg" "/tmp/w8.txt")).1).map Prod.fst
    ∧ "--batch" ∈ gpgArgv "/tmp/w8.txt" "/tmp/w8.gpg"
    ∧ "--no-symkey-cache" ∈ gpgArgv "/tmp/w8.txt" "/tmp/w8.gpg"
    ∧ " pw one " ∉ gpgArgv "/tmp/w8.txt" "/tmp/w8.gpg" := by
  have h := passphrase_not_in_gpg_argv
    ⟨true, true, some "x", CurlOutcome.ok, [], GpgOutcome.exits 0, [], false,
      CurlOutcome.ok, CurlOutcome.ok⟩
    (initState "/tmp/w8.gpg" "/tmp/w8.txt") " pw one " "other" " pw one "
    (by decide) (by decide) rfl rfl (by decide) (by decide) (by decide)
  exact ⟨h.1, h.2.2.1, h.2.2.2.1, h.2.2.2.2⟩

/-- C3 (counterexample): a run in which gpg exceeds its timeout, and in
which, for the encrypted-token temp file, shred is unavailable
(`FileNotFoundError`) and the fallback `os.remove` raises an `OSError`
that `secure_rm` suppresses.  The subprocess is killed and the process
exits with status 1, but the temporary file is NOT erased by cleanup: it
survives on durable storage with its downloaded content — refuting the
claim's unconditional "the temporary files are still erased by cleanup". -/
theorem decrypt_timeout_file_not_erased :
    Event.gpgKill ∈ (processRun ⟨true, true, some "pw", CurlOutcome.ok,
        "CIPH".toList, GpgOutcome.timedOut, [], false, CurlOutcome.ok, CurlOutcome.ok⟩
      ⟨⟨ShredOutcome.notFound, RmOutcome.osError⟩, ⟨ShredOutcome.ok, RmOutcome.ok⟩⟩
      "/tmp/c3.gpg" "/tmp/c3.txt").1
    ∧ (processRun ⟨true, true, some "pw", CurlOutcome.ok,
        "CIPH".toList, GpgOutcome.timedOut, [], false, CurlOutcome.ok, CurlOutcome.ok⟩
      ⟨⟨ShredOutcome.notFound, RmOutcome.osError⟩, ⟨ShredOutcome.ok, RmOutcome.ok⟩⟩
      "/tmp/c3.gpg" "/tmp/c3.txt").2.1 = 1
    ∧ (processRun ⟨true, true, some "pw", CurlOutcome.ok,
        "CIPH".toList, GpgOutcome.timedOut, [], false, CurlOutcome.ok, CurlOutcome.ok⟩
      ⟨⟨ShredOutcome.notFound, RmOutcome.osError⟩, ⟨ShredOutcome.ok, RmOutcome.ok⟩⟩
      "/tmp/c3.gpg" "/tmp/c3.txt").2.2.tmpGpg = some ⟨"CIPH".toList, 384⟩
    ∧ noSecret (processRun ⟨true, true, some "pw", CurlOutcome.ok,
        "CIPH".toList, GpgOutcome.timedOut, [], false, CurlOutcome.ok, CurlOutcome.ok⟩
      ⟨⟨ShredOutcome.notFound, RmOutcome.osError⟩, ⟨ShredOutcome.ok, RmOutcome.ok⟩⟩
      "/tmp/c3.gpg" "/tmp/c3.txt").2.2.tmpGpg = false := by
  decide

/-- C3 (amended): when the gpg subprocess exceeds its timeout (and the
workflow reached decryption), the full process trace shows the kill of the
subprocess immediately before the Timeout error is reported, the process
exits with status 1, and — provided for each temp file either shred or
the fallback deletion succeeds — the final state after the atexit cleanup
holds no secret material and no in-memory token. -/
theorem decrypt_timeout_kills_and_cleans (env : RunEnv) (cenv : CleanupEnv)
    (gp tp line : String)
    (hg : env.gpgOnPath = true) (hc : env.curlOnPath = true)
    (hl : env.passphraseLine = some line) (hpw : pyStrip line ≠ "")
    (hdl : env.encTokenDownload = CurlOutcome.ok)
    (hto : env.gpgOutcome = GpgOutcome.timedOut)
    (hcg : cenv.gpgEnv.shred = ShredOutcome.ok ∨ cenv.gpgEnv.rm = RmOutcome.ok)
    (hct : cenv.tokEnv.shred = ShredOutcome.ok ∨ cenv.tokEnv.rm = RmOutcome.ok) :
    (processRun env cenv gp tp).1
        = initTrace gp tp ++
          [Event.checkCmd "gpg", Event.checkCmd "curl", Event.promptPass,
           Event.curlRun (curlTokenArgv gp),
           Event.fsWrite gp env.encBytes,
           Event.gpgInvoke (gpgArgv tp gp) (pyStrip line),
           Event.gpgKill,
           Event.errPrint "GPG decryption timed out",
           Event.cleanupCall]
      ∧ (processRun env cenv gp tp).2.1 = 1
      ∧ noSecret (processRun env cenv gp tp).2.2.tmpGpg = true
      ∧ noSecret (processRun env cenv gp tp).2.2.tmpToken = true
      ∧ (processRun env cenv gp tp).2.2.token = none := by
  have hrun : runSteps env (initState gp tp)
      = ([Event.checkCmd "gpg", Event.checkCmd "curl", Event.promptPass,
          Event.curlRun (curlTokenArgv gp),
          Event.fsWrite gp env.encBytes,
          Event.gpgInvoke (gpgArgv tp gp) (pyStrip line),
          Event.gpgKill,
          Event.errPrint "GPG decryption timed out"], 1,
         { gpgPath := gp, tokenPath := tp,
           tmpGpg := some { content := env.encBytes, mode := 0o600 },
           tmpToken := some { content := [], mode := 0o600 },
           token := none }) := by
    unfold runSteps afterPassphrase
    rw [hl]
    simp [hg, hc, if_neg hpw, hdl, hto, initState, writeFile, decryptInvocation]
  refine ⟨?_, ?_, ?_⟩
  · simp [processRun, atexitShutdown, hrun]
  · simp [processRun, atexitShutdown, hrun]
  · have h := cleanupState_noSecret cenv ((runSteps env (initState gp tp)).2.2) hcg hct
    simpa [processRun, atexitShutdown] using h

/-- Witness for C3 at a concrete environment where gpg times out. -/
theorem decrypt_timeout_kills_and_cleans_witness :
    (processRun ⟨true, true, some "pw", CurlOutcome.ok, "CIPH".toList,
          GpgOutcome.timedOut, [], false, CurlOutcome.ok, CurlOutcome.ok⟩
        ⟨⟨ShredOutcome.notFound, RmOutcome.ok⟩, ⟨ShredOutcome.ok, RmOutcome.ok⟩⟩
        "/tmp/w3.gpg" "/tmp/w3.txt").2.1 = 1
      ∧ noSecret (processRun ⟨true, true, some "pw", CurlOutcome.ok, "CIPH".toList,
          GpgOutcome.timedOut, [], false, CurlOutcome.ok, CurlOutcome.ok⟩
        ⟨⟨ShredOutcome.notFound, RmOutcome.ok⟩, ⟨ShredOutcome.ok, RmOutcome.ok⟩⟩
        "/tmp/w3.gpg" "/tmp/w3.txt").2.2.tmpGpg = true
      ∧ noSecret (processRun ⟨true, true, some "pw", CurlOutcome.ok, "CIPH".toList,
          GpgOutcome.timedOut, [], false, CurlOutcome.ok, CurlOutcome.ok⟩
        ⟨⟨ShredOutcome.notFound, RmOutcome.ok⟩, ⟨ShredOutcome.ok, RmOutcome.ok⟩⟩
        "/tmp/w3.gpg" "/tmp/w3.txt").2.2.tmpToken = true
      ∧ (processRun ⟨true, true, some "pw", CurlOutcome.ok, "CIPH".toList,
          GpgOutcome.timedOut, [], false, CurlOutcome.ok, CurlOutcome.ok⟩
        ⟨⟨ShredOutcome.notFound, RmOutcome.ok⟩, ⟨ShredOutcome.ok, RmOutcome.ok⟩⟩
        "/tmp/w3.gpg" "/tmp/w3.txt").2.2.token = none := by
  have h := decrypt_timeout_kills_and_cleans
    ⟨true, true, some "pw", CurlOutcome.ok, "CIPH".toList,
      GpgOutcome.timedOut, [], false, CurlOutcome.ok, CurlOutcome.ok⟩
    ⟨⟨ShredOutcome.notFound, RmOutcome.ok⟩, ⟨ShredOutcome.ok, RmOutcome.ok⟩⟩
    "/tmp/w3.gpg" "/tmp/w3.txt" "pw"
    rfl rfl rfl (by decide) rfl rfl (Or.inr rfl) (Or.inl rfl)
  exact ⟨h.2.1, h.2.2.1, h.2.2.2.1, h.2.2.2.2⟩

/-- C1 (counterexample): if, for the plaintext-token temp file, shred is
unavailable (`FileNotFoundError`) and the fallback `os.remove` raises an
`OSError` (which `secure_rm` suppresses with `pass`), then after `cleanup()`
has run the plaintext-token file still exists on durable storage with the
secret token as its content — refuting the claim on that execution path. -/
theorem cleanup_can_leave_secret_file :
    (cleanupState ⟨⟨ShredOutcome.ok, RmOutcome.ok⟩, ⟨ShredOutcome.notFound, RmOutcome.osError⟩⟩
        ⟨"/tmp/c1.gpg", "/tmp/c1.txt", some ⟨[], 384⟩,
          some ⟨"ghp_SECRET".toList, 384⟩, some "ghp_SECRET"⟩).tmpToken
      = some ⟨"ghp_SECRET".toList, 384⟩
    ∧ noSecret (cleanupState ⟨⟨ShredOutcome.ok, RmOutcome.ok⟩,
        ⟨ShredOutcome.notFound, RmOutcome.osError⟩⟩
        ⟨"/tmp/c1.gpg", "/tmp/c1.txt", some ⟨[], 384⟩,
          some ⟨"ghp_SECRET".toList, 384⟩, some "ghp_SECRET"⟩).tmpToken = false := by
  decide

/-- C1 (amended): after `cleanup()` has run — on every uninterrupted
execution path (any run environment) and on every interrupted one — the
in-memory token reference is always `None`, and provided that for each
temporary file either shred succeeded or the fallback deletion succeeded,
no file of the fetcher contains secret material (each is absent or
zero-filled). -/
theorem cleanup_erases_secrets_if_deletion_succeeds (env : RunEnv)
    (cenv : CleanupEnv) (gp tp : String) (s : TMState)
    (hcg : cenv.gpgEnv.shred = ShredOutcome.ok ∨ cenv.gpgEnv.rm = RmOutcome.ok)
    (hct : cenv.tokEnv.shred = ShredOutcome.ok ∨ cenv.tokEnv.rm = RmOutcome.ok) :
    (noSecret (processRun env cenv gp tp).2.2.tmpGpg = true
      ∧ noSecret (processRun env cenv gp tp).2.2.tmpToken = true
      ∧ (processRun env cenv gp tp).2.2.token = none)
    ∧ (noSecret (interruptedRun cenv s).2.2.tmpGpg = true
      ∧ noSecret (interruptedRun cenv s).2.2.tmpToken = true
      ∧ (interruptedRun cenv s).2.2.token = none) := by
  constructor
  · have h := cleanupState_noSecret cenv ((runSteps env (initState gp tp)).2.2) hcg hct
    simpa [processRun, atexitShutdown] using h
  · have h := cleanupState_noSecret cenv (cleanupState cenv s) hcg hct
    simpa [interruptedRun, atexitShutdown] using h

/-- Witness for the amended C1 at a concrete run and interrupt state. -/
theorem cleanup_erases_secrets_if_deletion_succeeds_witness :
    noSecret (processRun ⟨true, true, some "pw", CurlOutcome.ok, "CIPH".toList,
          GpgOutcome.exits 0, "ghp_tok".toList, false, CurlOutcome.ok, CurlOutcome.ok⟩
        ⟨⟨ShredOutcome.ok, RmOutcome.ok⟩, ⟨ShredOutcome.notFound, RmOutcome.ok⟩⟩
        "/tmp/w1.gpg" "/tmp/w1.txt").2.2.tmpToken = true
      ∧ (processRun ⟨true, true, some "pw", CurlOutcome.ok, "CIPH".toList,
          GpgOutcome.exits 0, "ghp_tok".toList, false, CurlOutcome.ok, CurlOutcome.ok⟩
        ⟨⟨ShredOutcome.ok, RmOutcome.ok⟩, ⟨ShredOutcome.notFound, RmOutcome.ok⟩⟩
        "/tmp/w1.gpg" "/tmp/w1.txt").2.2.token = none
      ∧ noSecret (interruptedRun
          ⟨⟨ShredOutcome.ok, RmOutcome.ok⟩, ⟨ShredOutcome.notFound, RmOutcome.ok⟩⟩
          ⟨"/tmp/w1.gpg", "/tmp/w1.txt", some ⟨"CIPH".toList, 384⟩,
            some ⟨"ghp_tok".toList, 384⟩, some "ghp_tok"⟩).2.2.tmpToken = true := by
  have h := cleanup_erases_secrets_if_deletion_succeeds
    ⟨true, true, some "pw", CurlOutcome.ok, "CIPH".toList,
      GpgOutcome.exits 0, "ghp_tok".toList, false, CurlOutcome.ok, CurlOutcome.ok⟩
    ⟨⟨ShredOutcome.ok, RmOutcome.ok⟩, ⟨ShredOutcome.notFound, RmOutcome.ok⟩⟩
    "/tmp/w1.gpg" "/tmp/w1.txt"
    ⟨"/tmp/w1.gpg", "/tmp/w1.txt", some ⟨"CIPH".toList, 384⟩,
      some ⟨"ghp_tok".toList, 384⟩, some "ghp_tok"⟩
    (Or.inl rfl) (Or.inr rfl)
  exact ⟨h.1.2.1, h.1.2.2, h.2.2.1⟩

/-- C2 (counterexample): on an interrupt, the cleanup routine is invoked
twice — once by the signal handler and once by the atexit exit handler
when `sys.exit(1)` terminates the interpreter — not exactly once. -/
theorem interrupt_triggers_cleanup_twice :
    cleanupCount (interruptedRun
        ⟨⟨ShredOutcome.ok, RmOutcome.ok⟩, ⟨ShredOutcome.ok, RmOutcome.ok⟩⟩
        ⟨"/tmp/c2.gpg", "/tmp/c2.txt", some ⟨[], 384⟩, some ⟨[], 384⟩, none⟩).1 = 2
    ∧ ¬ cleanupCount (interruptedRun
        ⟨⟨ShredOutcome.ok, RmOutcome.ok⟩, ⟨ShredOutcome.ok, RmOutcome.ok⟩⟩
        ⟨"/tmp/c2.gpg", "/tmp/c2.txt", some ⟨[], 384⟩, some ⟨[], 384⟩, none⟩).1 = 1 := by
  decide

/-- C2 (amended): an interrupt mid-run invokes the cleanup routine twice
(signal handler, then exit handler), the process exits with status 1, and
because cleanup is idempotent the final state equals the state after a
single cleanup — so no double-delete error can occur. -/
theorem interrupt_cleanup_idempotent_exit_one (cenv : CleanupEnv) (s : TMState) :
    cleanupCount (interruptedRun cenv s).1 = 2
      ∧ (interruptedRun cenv s).2.1 = 1
      ∧ (interruptedRun cenv s).2.2 = cleanupState cenv s :=
  ⟨rfl, rfl, cleanupState_idem cenv s⟩

/-- C5 (code-bug evaluation): with the secure-delete tool installed and
exiting successfully, `cleanup` leaves the temporary file present on disk
(merely zero-filled): the `shred -vfz -n 3` invocation lacks `-u`, so the
"delete" half of the documented overwrite-and-delete never happens. -/
theorem shred_success_leaves_file_present :
    (cleanupState ⟨⟨ShredOutcome.ok, RmOutcome.ok⟩, ⟨ShredOutcome.ok, RmOutcome.ok⟩⟩
        ⟨"/tmp/c5.gpg", "/tmp/c5.txt", some ⟨"CIPHER".toList, 384⟩,
          some ⟨"tok".toList, 384⟩, none⟩).tmpGpg
      = some ⟨List.replicate 6 nulChar, 384⟩
    ∧ ¬ (cleanupState ⟨⟨ShredOutcome.ok, RmOutcome.ok⟩, ⟨ShredOutcome.ok, RmOutcome.ok⟩⟩
        ⟨"/tmp/c5.gpg", "/tmp/c5.txt", some ⟨"CIPHER".toList, 384⟩,
          some ⟨"tok".toList, 384⟩, none⟩).tmpGpg = none := by
  decide

/-- C6 (counterexample): after one `cleanup` in which shred succeeded, the
encrypted-token temp path is NOT absent (shred does not unlink), and a
second `cleanup` does not skip it: it runs shred on it again. -/
theorem cleanup_second_call_reprocesses_file :
    ¬ (cleanupState ⟨⟨ShredOutcome.ok, RmOutcome.ok⟩, ⟨ShredOutcome.ok, RmOutcome.ok⟩⟩
        ⟨"/tmp/c6.gpg", "/tmp/c6.txt", some ⟨['x'], 384⟩, some ⟨['y'], 384⟩,
          some "y"⟩).tmpGpg = none
    ∧ RmEvent.shredAttempt "/tmp/c6.gpg"
        ∈ (cleanupT ⟨⟨ShredOutcome.ok, RmOutcome.ok⟩, ⟨ShredOutcome.ok, RmOutcome.ok⟩⟩
            (cleanupState ⟨⟨ShredOutcome.ok, RmOutcome.ok⟩, ⟨ShredOutcome.ok, RmOutcome.ok⟩⟩
              ⟨"/tmp/c6.gpg", "/tmp/c6.txt", some ⟨['x'], 384⟩, some ⟨['y'], 384⟩,
                some "y"⟩)).1
    ∧ RmEvent.skipped "/tmp/c6.gpg"
        ∉ (cleanupT ⟨⟨ShredOutcome.ok, RmOutcome.ok⟩, ⟨ShredOutcome.ok, RmOutcome.ok⟩⟩
            (cleanupState ⟨⟨ShredOutcome.ok, RmOutcome.ok⟩, ⟨ShredOutcome.ok, RmOutcome.ok⟩⟩
              ⟨"/tmp/c6.gpg", "/tmp/c6.txt", some ⟨['x'], 384⟩, some ⟨['y'], 384⟩,
                some "y"⟩)).1 := by
  decide

/-- C6 (amended): `cleanup` is idempotent on the state — a second
invocation under the same deletion environment leaves exactly the state of
a single invocation, and the token reference is `None` — although a
shred-zeroed path remains present and is re-shredded rather than found
absent or skipped. -/
theorem cleanup_idempotent_token_cleared (cenv : CleanupEnv) (s : TMState) :
    cleanupState cenv (cleanupState cenv s) = cleanupState cenv s
      ∧ (cleanupState cenv s).token = none :=
  ⟨cleanupState_idem cenv s, cleanupState_token_none cenv s⟩

/-- C7: in every run, the only file-creation events of the whole process
trace are the two temporary files, both created with owner-only mode
`0o600`; the trace begins with the `__init__` prologue, which contains no
write event, and no creation event occurs after the prologue — so both
files have mode `0o600` from the moment of creation, before any content
is written; and at creation both files are empty. -/
theorem temp_files_created_owner_only (env : RunEnv) (cenv : CleanupEnv)
    (gp tp : String) :
    createsOf (processRun env cenv gp tp).1 = [(gp, 0o600), (tp, 0o600)]
      ∧ (∃ rest, (processRun env cenv gp tp).1 = initTrace gp tp ++ rest
          ∧ createsOf rest = [] ∧ writesOf (initTrace gp tp) = [])
      ∧ (initState gp tp).tmpGpg = some ⟨[], 0o600⟩
      ∧ (initState gp tp).tmpToken = some ⟨[], 0o600⟩ := by
  refine ⟨?_, ⟨(runSteps env (initState gp tp)).1 ++ [Event.cleanupCall],
      ?_, ?_, ?_⟩, rfl, rfl⟩
  · simp only [processRun, atexitShutdown, createsOf_append, createsOf_runSteps]
    simp [createsOf, initTrace]
  · simp [processRun, atexitShutdown]
  · rw [createsOf_append, createsOf_runSteps]
    simp [createsOf]
  · simp [writesOf, initTrace]

end CurlMyFiles
